import Mathlib

/-!
Verification of the MI-Equipment-Rental-Server core (src/main.py) against its
natural-language specification.

The shallow embedding below translates the Python module into Lean:

* Python dicts become association lists (`List (k × v)`); dict assignment
  (`d[k] = v`, which replaces in place or appends) becomes `dictSet`; dict
  access becomes `List.lookup`.  All dicts built by the program have unique
  keys, so first-match lookup coincides with Python dict semantics.
* Values stored in raw wiki records are modelled by `PyVal`: a string, a list
  of strings (the wiki's encoding of multi-valued fields), Python `None`, or a
  pydantic `ModelField` descriptor object (which `_item_to_dw` ends up storing
  because it reads `item.__fields__[k]` instead of the field's value).
* The external collaborators (DokuWiki XML-RPC client, LDAP client) are not in
  the repository; they are modelled as records of fallible functions
  (`WikiBackend`, `LdapBackend`), each call returning `Except` to model the
  exceptions the Python clients can raise.
* Fallible Python code is modelled in `Except PyErr`; an uncaught exception is
  an `Except.error` that propagates.
-/

deriving instance DecidableEq for Except

namespace MIRental

/-- Python runtime errors relevant to this module: a `DokuWikiError` raised by
the wiki client, a pydantic `ValidationError` (tagged with the failing field),
a failed `assert`, and an `IndexError`. -/
inductive PyErr where
  | dokuWikiError
  | validationError (field : String)
  | assertionError
  | indexError
deriving DecidableEq, Repr

/-- A Python value as it occurs in the raw records this module handles:
a string, a list of strings, `None`, or a pydantic `ModelField` descriptor
object for the named Item field (what `item.__fields__[k]` evaluates to). -/
inductive PyVal where
  | s (v : String)
  | l (vs : List String)
  | noneV
  | modelField (field : String)
deriving DecidableEq, Repr

/-- A raw wiki record: the dict of field-name/value pairs returned for a page
(`Dataentry.get`), or the empty dict `{}` for a missing page. -/
abbrev RawRecord := List (String × PyVal)

/-- The in-memory cache: dict from integer uid to raw record. -/
abbrev Cache := List (Int × RawRecord)

/-- Python dict assignment `d[k] = v`: replace the (unique) existing entry in
place, otherwise append. -/
def dictSet {α β : Type} [BEq α] (d : List (α × β)) (k : α) (v : β) :
    List (α × β) :=
  match d with
  | [] => [(k, v)]
  | p :: rest => if p.1 == k then (k, v) :: rest else p :: dictSet rest k v

/-- Settings field `wiki_path` (default value; no environment override
modelled). -/
def wiki_path : String := "lab:ausstattung:"

/-- Settings field `groups_with_edit_rights` (default value). -/
def groups_with_edit_rights : List String :=
  ["mi-staff.mi.sprachlit.uni-regensburg.de",
   "mi-shk.mi.sprachlit.uni-regensburg.de"]

/-- A date as pydantic's `date` coercion produces it from an ISO string.
(pydantic v1 also accepts numeric timestamps and checks day-of-month bounds
precisely; those cases are irrelevant to the records handled here.) -/
structure PyDate where
  year : Nat
  month : Nat
  day : Nat
deriving DecidableEq, Repr

/-- The canonical domain record (`class Item(BaseModel)`), all fields
Optional. -/
structure Item where
  uid : Option Int
  typ : Option (List String)
  name : Option String
  standort : Option String
  os : Option String
  zubehoer : Option String
  seriennummern : Option String
  status : Option String
  ausleiher : Option String
  von : Option PyDate
  bis : Option PyDate
  anmerkungen : Option String
  url : Option String
deriving DecidableEq, Repr

/-- The field names `Item.__fields__.keys()` in declaration order (pydantic preserves the
order the fields are declared in). -/
def itemFieldNames : List String :=
  ["uid", "typ", "name", "standort", "os", "zubehoer", "seriennummern",
   "status", "ausleiher", "von", "bis", "anmerkungen", "url"]

/-- Forward field map `DW_TO_I` from raw wiki keys to Item field names, in
source order. -/
def DW_TO_I : List (String × String) :=
  [("ID", "uid"),
   ("Name", "name"),
   ("Typ_devicetypes", "typ"),
   ("Standort", "standort"),
   ("OS", "os"),
   ("Zubehör", "zubehoer"),
   ("Seriennummern", "seriennummern"),
   ("Status_devicestat", "status"),
   ("Ausleiher", "ausleiher"),
   ("Von_dt", "von"),
   ("Bis_dt", "bis"),
   ("Anmerkungen", "anmerkungen")]

/-- Reverse field map `I_TO_DW`, built as `{value: key for key, value in
DW_TO_I.items()}`: the full
inversion of the forward map (all values of `DW_TO_I` are distinct, so no
entry is clobbered). Note it therefore contains the entry uid ↦ ID. -/
def I_TO_DW : List (String × String) :=
  DW_TO_I.map (fun p => (p.2, p.1))

/-- Decimal value of a list of ASCII digits. -/
def natOfDigits (l : List Char) : Nat :=
  l.foldl (fun a c => a * 10 + (c.toNat - Char.toNat '0')) 0

/-- The string equivalents of Python's `str.split`, `str.strip`,
`str.startswith` and `str.replace` are implemented below over `List Char`
with structural recursion, because the corresponding `String` library
functions do not reduce definitionally. -/
def splitCharAux (sep : Char) : List Char → List Char → List (List Char)
  | [], acc => [acc.reverse]
  | c :: rest, acc =>
      if c = sep then acc.reverse :: splitCharAux sep rest []
      else splitCharAux sep rest (c :: acc)

/-- Python `s.split(sep)` for a one-character separator (an empty string
splits to `[""]`, like in Python). -/
def pySplit (sep : Char) (str : String) : List String :=
  (splitCharAux sep str.toList []).map String.mk

/-- Whitespace stripping as done by Python `int(s)` (ASCII whitespace is all
that occurs here). -/
def pyStrip (cs : List Char) : List Char :=
  ((cs.dropWhile Char.isWhitespace).reverse.dropWhile Char.isWhitespace).reverse

/-- Python `int(s)` on a string: optional surrounding whitespace, optional
sign, one or more decimal digits; anything else raises `ValueError`
(modelled as `none`).  (Python additionally allows underscores between
digits and non-ASCII decimal digits; no input in this development uses
them.) -/
def pyInt (str : String) : Option Int :=
  match pyStrip str.toList with
  | '-' :: rest =>
      if rest ≠ [] ∧ rest.all Char.isDigit then some (-(natOfDigits rest : Int))
      else none
  | '+' :: rest =>
      if rest ≠ [] ∧ rest.all Char.isDigit then some (natOfDigits rest : Int)
      else none
  | cs =>
      if cs ≠ [] ∧ cs.all Char.isDigit then some (natOfDigits cs : Int)
      else none

/-- pydantic's date coercion on the ISO strings stored in the wiki:
`YYYY-MM-DD` with all-digit components and in-range month/day. -/
def parseDate (v : String) : Option PyDate :=
  match pySplit '-' v with
  | [y, m, d] =>
      if y.toList ≠ [] ∧ y.toList.all Char.isDigit ∧
         m.toList ≠ [] ∧ m.toList.all Char.isDigit ∧
         d.toList ≠ [] ∧ d.toList.all Char.isDigit ∧
         1 ≤ natOfDigits m.toList ∧ natOfDigits m.toList ≤ 12 ∧
         1 ≤ natOfDigits d.toList ∧ natOfDigits d.toList ≤ 31 then
        some ⟨natOfDigits y.toList, natOfDigits m.toList, natOfDigits d.toList⟩
      else none
  | _ => none

/-- Python `s.startswith(p)`. -/
def pyStarts (p str : String) : Bool :=
  p.toList.isPrefixOf str.toList

/-- Fuel-bounded replacement kernel for `pyReplace` (the fuel, taken to be
the length of the subject string, is an upper bound on the number of
steps; each step consumes at least one character). -/
def replaceFuel : Nat → List Char → List Char → List Char → List Char
  | 0, cs, _, _ => cs
  | _, [], _, _ => []
  | fuel + 1, c :: rest, pat, repl =>
      if pat ≠ [] ∧ pat.isPrefixOf (c :: rest) then
        repl ++ replaceFuel fuel ((c :: rest).drop pat.length) pat repl
      else c :: replaceFuel fuel rest pat repl

/-- Python `s.replace(pat, repl)`: replace every (non-overlapping,
left-to-right) occurrence of `pat` by `repl`. -/
def pyReplace (str pat repl : String) : String :=
  String.mk (replaceFuel str.toList.length str.toList pat.toList repl.toList)

/-- The `item_fields` dict built by the first loop of `_dw_to_item`: for each
raw key present in `DW_TO_I`, store the value under the Item field name, with
the empty string becoming `None`; raw keys absent from the map are dropped
(`except KeyError: pass`). -/
def buildFields (dataentry : RawRecord) : List (String × PyVal) :=
  dataentry.foldl
    (fun acc kv =>
      match List.lookup kv.1 DW_TO_I with
      | some target =>
          dictSet acc target (if kv.2 == PyVal.s "" then PyVal.noneV else kv.2)
      | none => acc)
    []

/-- The "special cases" block of `_dw_to_item`: a scalar (str) `typ` is
wrapped into a one-element list; a `typ` of any other type, or an absent
`typ` (which only triggers a printed warning), is left unchanged. -/
def typFix (fs : List (String × PyVal)) : List (String × PyVal) :=
  match List.lookup "typ" fs with
  | some (PyVal.s v) => dictSet fs "typ" (PyVal.l [v])
  | _ => fs

/-- pydantic coercion of an `Optional[str]` field: absent or `None` stays
unset; a string passes through; any other type fails validation. -/
def coStr (field : String) : Option PyVal → Except PyErr (Option String)
  | none => .ok none
  | some PyVal.noneV => .ok none
  | some (PyVal.s v) => .ok (some v)
  | some _ => .error (.validationError field)

/-- pydantic coercion of the `Optional[int]` uid field: a string is parsed
with Python `int`; failure to parse is a `ValidationError`. -/
def coInt (field : String) : Option PyVal → Except PyErr (Option Int)
  | none => .ok none
  | some PyVal.noneV => .ok none
  | some (PyVal.s v) =>
      match pyInt v with
      | some n => .ok (some n)
      | none => .error (.validationError field)
  | some _ => .error (.validationError field)

/-- pydantic coercion of the `Optional[List[str]]` typ field: a list passes
through in element order; a bare string (or a descriptor) is not a valid
list. -/
def coListStr (field : String) : Option PyVal → Except PyErr (Option (List String))
  | none => .ok none
  | some PyVal.noneV => .ok none
  | some (PyVal.l vs) => .ok (some vs)
  | some _ => .error (.validationError field)

/-- pydantic coercion of an `Optional[date]` field from an ISO string. -/
def coDate (field : String) : Option PyVal → Except PyErr (Option PyDate)
  | none => .ok none
  | some PyVal.noneV => .ok none
  | some (PyVal.s v) =>
      match parseDate v with
      | some d => .ok (some d)
      | none => .error (.validationError field)
  | some _ => .error (.validationError field)

/-- Forward mapper `_dw_to_item(dataentry)`: build `item_fields` from the forward map, apply
the `typ` special case, then construct `Item(**item_fields)` with pydantic
coercion (fields absent from `item_fields` default to `None`; `url` has no
forward-map source and is always `None`). -/
def _dw_to_item (dataentry : RawRecord) : Except PyErr Item := do
  let fs := typFix (buildFields dataentry)
  let uid ← coInt "uid" (List.lookup "uid" fs)
  let typ ← coListStr "typ" (List.lookup "typ" fs)
  let name ← coStr "name" (List.lookup "name" fs)
  let standort ← coStr "standort" (List.lookup "standort" fs)
  let os ← coStr "os" (List.lookup "os" fs)
  let zubehoer ← coStr "zubehoer" (List.lookup "zubehoer" fs)
  let seriennummern ← coStr "seriennummern" (List.lookup "seriennummern" fs)
  let status ← coStr "status" (List.lookup "status" fs)
  let ausleiher ← coStr "ausleiher" (List.lookup "ausleiher" fs)
  let von ← coDate "von" (List.lookup "von" fs)
  let bis ← coDate "bis" (List.lookup "bis" fs)
  let anmerkungen ← coStr "anmerkungen" (List.lookup "anmerkungen" fs)
  .ok { uid := uid, typ := typ, name := name, standort := standort, os := os,
        zubehoer := zubehoer, seriennummern := seriennummern, status := status,
        ausleiher := ausleiher, von := von, bis := bis,
        anmerkungen := anmerkungen, url := none }

/-- Reverse mapper `_item_to_dw(item)`: for each Item field name with a reverse-map entry,
store `item.__fields__[k]` — the pydantic `ModelField` descriptor object of
field `k`, NOT the item's value (the item argument is never read) — under the
raw key.  Faithful to the source, bug included. -/
def _item_to_dw (_item : Item) : List (String × PyVal) :=
  itemFieldNames.foldl
    (fun acc k =>
      match List.lookup k I_TO_DW with
      | some target => dictSet acc target (PyVal.modelField k)
      | none => acc)
    []

/-- The Item with every field unset: `Item()` / `_dw_to_item({})`. -/
def emptyItem : Item :=
  { uid := none, typ := none, name := none, standort := none, os := none,
    zubehoer := none, seriennummern := none, status := none, ausleiher := none,
    von := none, bis := none, anmerkungen := none, url := none }

/-! ## External collaborators

The DokuWiki XML-RPC client and the LDAP client are not part of the
repository; per the spec's external-interface section (§6) they are modelled
as records of fallible functions, every call able to fail with a transport
error (`DokuWikiError`) resp. a timeout (`ldap.TIMEOUT`). -/

/-- The wiki backend as the module uses it:
`pageInfo` is `dw.pages.info(page)` (the empty dict means the page does not
exist); `pageRecord` is `Dataentry.get(dw.pages.get(page))`, the structured
record of an existing page; `pageList` is `dw.pages.list(namespace)` giving
the page ids under a namespace; `pageChanges` is `dw.pages.changes(ts)`
giving the names of pages changed since a timestamp. -/
structure WikiBackend where
  pageInfo : String → Except PyErr (List (String × String))
  pageRecord : String → Except PyErr RawRecord
  pageList : String → Except PyErr (List String)
  pageChanges : Int → Except PyErr (List String)

/-- Zero-pad a decimal string to the given width. -/
def padZeros (w : Nat) (str : String) : String :=
  String.mk (List.replicate (w - str.length) '0') ++ str

/-- Python `f"{uid:03d}"`: zero-pad to total width 3, sign included. -/
def pad3 (n : Int) : String :=
  if n < 0 then "-" ++ padZeros 2 (toString n.natAbs)
  else padZeros 3 (toString n.natAbs)

/-- Single-page fetch `get_dataentry(uid)`: build the page name from the namespace prefix and
the zero-padded uid; if `dw.pages.info(page)` returns the empty dict the page
does not exist — print an ERROR line and return the empty dict `{}`;
otherwise fetch and parse the page content.  A `DokuWikiError` raised by
either wiki call is not caught and propagates. -/
def get_dataentry (B : WikiBackend) (uid : Int) : Except PyErr RawRecord := do
  let page := wiki_path ++ pad3 uid
  let info ← B.pageInfo page
  if info = [] then
    .ok []
  else
    B.pageRecord page

/-- The per-page loop at the end of `update_cache`: for each page id, take
the trailing colon-separated segment; if it does not parse as an integer,
print a note and `continue` (the page is not an item); otherwise fetch its
record and assign `cache[uid] = get_dataentry(uid)` (an exception from the
fetch propagates and aborts the loop). -/
def processPages (B : WikiBackend) : Cache → List String → Except PyErr Cache
  | c, [] => .ok c
  | c, pid :: rest =>
      match pyInt ((pySplit ':' pid).getLastD "") with
      | none => processPages B c rest
      | some uid => do
          let d ← get_dataentry B uid
          processPages B (dictSet c uid d) rest

/-- Cache refresh `update_cache(since_ts)`: with a falsy `since_ts` (Python `if not
since_ts`: `None` or `0`), reset the cache to `{}` and process the full page
listing of the configured namespace; otherwise query the pages changed since
the watermark (the source passes the module global `last_checked_ts` to
`dw.pages.changes`; both call sites pass that same global as `since_ts`, so
the parameter is what is used), keep those whose name starts with the
namespace prefix, and process them into the existing cache.  Returns the
updated cache and `int(datetime.now().timestamp())`, modelled by the `now`
argument. -/
def update_cache (B : WikiBackend) (c : Cache) (since_ts : Option Int)
    (now : Int) : Except PyErr (Cache × Int) :=
  match since_ts with
  | none => do
      let pages ← B.pageList wiki_path
      let c' ← processPages B [] pages
      .ok (c', now)
  | some t =>
      if t = 0 then do
        let pages ← B.pageList wiki_path
        let c' ← processPages B [] pages
        .ok (c', now)
      else do
        let changed ← B.pageChanges t
        let c' ← processPages B c (changed.filter (fun nm => pyStarts wiki_path nm))
        .ok (c', now)

/-- The module-global mutable state: `cache` and `last_checked_ts`. -/
structure AppState where
  cache : Cache
  last_checked_ts : Option Int
deriving DecidableEq, Repr

/-- The `/update_cache` endpoint (`update_cache_now`): refresh using the
stored watermark and store the returned one. -/
def update_cache_now (B : WikiBackend) (st : AppState) (now : Int) :
    Except PyErr AppState :=
  match update_cache B st.cache st.last_checked_ts now with
  | .ok (c, ts) => .ok ⟨c, some ts⟩
  | .error e => .error e

/-- The `/purge_cache` endpoint (`purge_cache`): refresh with no watermark
(full rebuild) and store the returned one. -/
def purge_cache (B : WikiBackend) (st : AppState) (now : Int) :
    Except PyErr AppState :=
  match update_cache B st.cache none now with
  | .ok (c, ts) => .ok ⟨c, some ts⟩
  | .error e => .error e

/-- The `/items` endpoint (`list_items`): refresh the cache with the stored
watermark; if the refreshed cache is truthy (non-empty), map every cached raw
record to an Item in cache iteration order; otherwise hit `assert False`
(the filter parameters are accepted and ignored). -/
def list_items (B : WikiBackend) (st : AppState) (now : Int)
    (_item_type _location _status : Option String) :
    Except PyErr (AppState × List Item) :=
  match update_cache B st.cache st.last_checked_ts now with
  | .error e => .error e
  | .ok (c, ts) =>
      if c = [] then .error .assertionError
      else
        match c.mapM (fun kv => _dw_to_item kv.2) with
        | .ok items => .ok (⟨c, some ts⟩, items)
        | .error e => .error e

/-- The `/items/{item_id}` endpoint (`read_item`): if `purge_cache` is set or
the uid is not a cache key, fetch the record directly, store it under the uid
and map it; otherwise map the cached record.  (The endpoint's query flag
`purge_cache` is the `purge` argument here.) -/
def read_item (B : WikiBackend) (c : Cache) (item_id : Int) (purge : Bool) :
    Except PyErr (Cache × Item) :=
  if purge || (List.lookup item_id c).isNone then do
    let d ← get_dataentry B item_id
    let it ← _dw_to_item d
    .ok (dictSet c item_id d, it)
  else do
    let it ← _dw_to_item ((List.lookup item_id c).getD [])
    .ok (c, it)

/-! ## Directory lookup (`read_user_data`) -/

/-- The attributes of a directory entry that `read_user_data` reads, each a
list of values, already utf-8 decoded (the source decodes the byte strings;
the model works with the decoded text).  An entry that lacks one of these
attributes would raise `KeyError`; the entries modelled carry all three. -/
structure LdapEntry where
  groupMembership : List String
  fullName : List String
  mail : List String
deriving DecidableEq, Repr

/-- The LDAP client: `search` is `l.search_ext_s(base, scope, query,
timeout=5)`, returning `(dn, attrs)` pairs, or raising `ldap.TIMEOUT`
(modelled as the error case). -/
structure LdapBackend where
  search : String → Except Unit (List (String × LdapEntry))

/-- The group normalization applied to each `groupMembership` DN:
`g.replace("cn=", "").replace(",ou=", ".").replace(",o=", ".").replace(",c=", ".")`. -/
def normalize_group (g : String) : String :=
  pyReplace (pyReplace (pyReplace (pyReplace g "cn=" "") ",ou=" ".") ",o=" ".") ",c=" "."

/-- The JSON object returned by a successful `read_user_data`. -/
structure UserData where
  user_id : String
  name : String
  email : String
  groups : List String
  allowed : List String
deriving DecidableEq, Repr

/-- The `/users/{user_id}` endpoint (`read_user_data`): search the directory
for the user; a timeout returns `None`; `assert len(results) == 1`; normalize
the group DNs; `allowed` starts as the read-only operations and gains
`update_item` exactly when the configured edit-rights groups intersect the
normalized groups; `fullName[0]` / `mail[0]` raise `IndexError` when empty. -/
def read_user_data (L : LdapBackend) (user_id : String) :
    Except PyErr (Option UserData) :=
  let query := "(&(cn=" ++ user_id ++ ")(objectClass=urrzUser))"
  match L.search query with
  | .error _ => .ok none
  | .ok results =>
      match results with
      | [(_, result)] =>
          let groups := result.groupMembership.map normalize_group
          let allowed := ["read_item", "list_items"]
          let allowed :=
            if groups_with_edit_rights.any (fun r => decide (r ∈ groups)) then
              allowed ++ ["update_item"]
            else allowed
          match result.fullName, result.mail with
          | fn :: _, ml :: _ =>
              .ok (some { user_id := user_id, name := fn, email := ml,
                          groups := groups, allowed := allowed })
          | _, _ => .error .indexError
      | _ => .error .assertionError

/-! ## Concrete fixtures used by counterexamples and witnesses -/

/-- A raw wiki record with every mapped field populated. -/
def rawFull : RawRecord :=
  [("ID", PyVal.s "042"),
   ("Name", PyVal.s "ThinkPad X1"),
   ("Typ_devicetypes", PyVal.s "Laptop"),
   ("Standort", PyVal.s "Safe"),
   ("OS", PyVal.s "Linux"),
   ("Zubehör", PyVal.s "Netzteil"),
   ("Seriennummern", PyVal.s "SN123"),
   ("Status_devicestat", PyVal.s "entliehen"),
   ("Ausleiher", PyVal.s "alice"),
   ("Von_dt", PyVal.s "2021-01-04"),
   ("Bis_dt", PyVal.s "2021-02-01"),
   ("Anmerkungen", PyVal.s "ok")]

/-- A wiki backend on which every page is missing and every listing is
empty. -/
def bMissing : WikiBackend :=
  { pageInfo := fun _ => .ok [],
    pageRecord := fun _ => .ok [],
    pageList := fun _ => .ok [],
    pageChanges := fun _ => .ok [] }

/-! ## Helper lemmas -/

/-- Looking up the key just assigned by `dictSet` returns the assigned
value. -/
theorem lookup_dictSet_self {α β : Type} [BEq α] [LawfulBEq α]
    (d : List (α × β)) (k : α) (v : β) :
    List.lookup k (dictSet d k v) = some v := by
  induction d with
  | nil => simp [dictSet, List.lookup]
  | cons p rest ih =>
      by_cases hp : p.1 = k
      · simp [dictSet, hp, List.lookup]
      · have hb : (p.1 == k) = false := by simp [hp]
        have hb' : (k == p.1) = false := by
          simp [show k ≠ p.1 from fun h => hp h.symm]
        simp [dictSet, hb, List.lookup, hb', ih]

/-! ## C1 -/

/-- C1: the claimed round-trip fails on the code: `_item_to_dw` reads
`item.__fields__[k]` — the pydantic field-descriptor object — instead of the
item's value, so mapping the fully populated record `rawFull` forward and
back yields a record whose `Name` entry is the descriptor of the `name`
field, not the original string value. -/
theorem c1_roundtrip_reads_descriptors :
    (_dw_to_item rawFull).map (fun it => List.lookup "Name" (_item_to_dw it)) =
      .ok (some (PyVal.modelField "name")) ∧
    List.lookup "Name" rawFull = some (PyVal.s "ThinkPad X1") := by decide

/-! ## C4 -/

/-- C4 counterexample: the reverse field map is the full inversion of the
forward map and therefore does contain the entry uid ↦ ID, and `_item_to_dw`
does emit an `ID` field. -/
theorem c4_counterexample :
    List.lookup "uid" I_TO_DW = some "ID" ∧
    List.lookup "ID" (_item_to_dw emptyItem) = some (PyVal.modelField "uid") := by
  decide

/-- C4 amended: for every Item, `_item_to_dw` emits a uid-derived `ID` field
in the produced raw record, because the reverse map — built as the full
inversion of the forward map — contains uid ↦ ID (the emitted value being
the uid field's descriptor object, see C1). -/
theorem c4_amended_uid_emitted :
    ∀ item : Item,
      List.lookup "ID" (_item_to_dw item) = some (PyVal.modelField "uid") := by
  intro item
  rfl

/-- Evaluating the mapper on the empty record gives the all-unset Item. -/
theorem dw_to_item_empty : _dw_to_item [] = .ok emptyItem := by decide

/-- Evaluating `read_item` on the fetch path when the page does not exist: the empty
record is stored under the uid and the all-unset Item is returned. -/
theorem read_item_missing_aux (B : WikiBackend) (c : Cache) (uid : Int)
    (purge : Bool)
    (hinfo : B.pageInfo (wiki_path ++ pad3 uid) = .ok [])
    (hcond : (purge || (List.lookup uid c).isNone) = true) :
    read_item B c uid purge = .ok (dictSet c uid [], emptyItem) := by
  have hget : get_dataentry B uid = .ok [] := by
    simp only [get_dataentry, hinfo]
    rfl
  simp only [read_item, hcond, if_true, hget, dw_to_item_empty]
  rfl

/-- Evaluating `read_item` on the cache path: with the uid cached and purge unset, the
cached record is mapped and the cache is unchanged. -/
theorem read_item_cached_aux (B : WikiBackend) (c : Cache) (uid : Int)
    (d : RawRecord) (it : Item)
    (hl : List.lookup uid c = some d) (hdw : _dw_to_item d = .ok it) :
    read_item B c uid false = .ok (c, it) := by
  simp only [read_item, hl, Option.isNone_some, Bool.false_or, if_false,
    Option.getD_some, hdw, Bool.or_self]
  rfl

/-! ## C2 -/

/-- C2 counterexample: with uid 7 uncached and page `lab:ausstattung:007`
nonexistent, `read_item` does not produce any error result: it returns the
all-unset default Item (and caches the empty record). -/
theorem c2_counterexample :
    read_item bMissing [] 7 false = .ok ([(7, [])], emptyItem) := by decide

/-- C2 amended: for every uid whose wiki page does not exist, a direct
single-item fetch via `read_item` (with purge set or the uid not cached)
returns the default all-unset Item and stores the empty record under the
uid; no explicit NotFound result is propagated to the caller. -/
theorem c2_amended_default_item (B : WikiBackend) (c : Cache) (uid : Int)
    (purge : Bool)
    (hinfo : B.pageInfo (wiki_path ++ pad3 uid) = .ok [])
    (hmiss : purge = true ∨ List.lookup uid c = none) :
    read_item B c uid purge = .ok (dictSet c uid [], emptyItem) := by
  refine read_item_missing_aux B c uid purge hinfo ?_
  rcases hmiss with h | h <;> simp [h]

/-- C2 amended, witness at a concrete input. -/
theorem c2_amended_witness :
    read_item bMissing [] 9 false = .ok ([(9, [])], emptyItem) :=
  c2_amended_default_item bMissing [] 9 false (by decide) (Or.inr (by decide))

/-! ## C10 -/

/-- C10: for every uncached uid whose wiki page does not exist, `read_item`
stores the empty raw record in the cache and returns the Item with every
field absent; every subsequent `read_item` without purge then serves that
empty record from the cache, independently of the wiki backend (the backend
is not contacted: any backend `B'` gives the same result). -/
theorem c10_missing_page_cached (B : WikiBackend) (c : Cache) (uid : Int)
    (hnc : List.lookup uid c = none)
    (hinfo : B.pageInfo (wiki_path ++ pad3 uid) = .ok []) :
    read_item B c uid false = .ok (dictSet c uid [], emptyItem) ∧
    ∀ B' : WikiBackend,
      read_item B' (dictSet c uid []) uid false =
        .ok (dictSet c uid [], emptyItem) := by
  constructor
  · exact read_item_missing_aux B c uid false hinfo (by simp [hnc])
  · intro B'
    exact read_item_cached_aux B' (dictSet c uid []) uid [] emptyItem
      (lookup_dictSet_self c uid []) dw_to_item_empty

/-- C10 witness at a concrete input. -/
theorem c10_witness :
    read_item bMissing [] 11 false = .ok ([(11, [])], emptyItem) ∧
    ∀ B' : WikiBackend,
      read_item B' (dictSet [] 11 []) 11 false =
        .ok (dictSet [] 11 [], emptyItem) :=
  c10_missing_page_cached bMissing [] 11 (by decide) (by decide)

/-! ## Helper lemmas about the refresh machinery -/

/-- Evaluating `get_dataentry` on a page whose `info` is the empty dict returns the
empty record. -/
theorem get_dataentry_missing (B : WikiBackend) (uid : Int)
    (hinfo : B.pageInfo (wiki_path ++ pad3 uid) = .ok []) :
    get_dataentry B uid = .ok [] := by
  simp only [get_dataentry, hinfo]
  rfl

/-- Evaluating `get_dataentry` on an existing page returns its structured record. -/
theorem get_dataentry_exists (B : WikiBackend) (uid : Int)
    (info : List (String × String)) (rec : RawRecord)
    (hinfo : B.pageInfo (wiki_path ++ pad3 uid) = .ok info) (hne : info ≠ [])
    (hrec : B.pageRecord (wiki_path ++ pad3 uid) = .ok rec) :
    get_dataentry B uid = .ok rec := by
  simp only [get_dataentry, hinfo]
  show (if info = [] then Except.ok [] else B.pageRecord (wiki_path ++ pad3 uid)) =
    .ok rec
  rw [if_neg hne, hrec]

/-- A wiki transport error raised inside `get_dataentry` propagates. -/
theorem get_dataentry_err (B : WikiBackend) (uid : Int)
    (hinfo : B.pageInfo (wiki_path ++ pad3 uid) = .error PyErr.dokuWikiError) :
    get_dataentry B uid = .error PyErr.dokuWikiError := by
  simp only [get_dataentry, hinfo]
  rfl

/-- The per-page loop on a page whose trailing segment parses as an
integer. -/
theorem processPages_hit (B : WikiBackend) (c : Cache) (pid : String)
    (rest : List String) (uid : Int)
    (h : pyInt ((pySplit ':' pid).getLastD "") = some uid) :
    processPages B c (pid :: rest) =
      (get_dataentry B uid).bind
        (fun d => processPages B (dictSet c uid d) rest) := by
  simp only [processPages, h]
  rfl

/-- The per-page loop skips a page whose trailing segment does not parse as
an integer. -/
theorem processPages_skip (B : WikiBackend) (c : Cache) (pid : String)
    (rest : List String)
    (h : pyInt ((pySplit ':' pid).getLastD "") = none) :
    processPages B c (pid :: rest) = processPages B c rest := by
  simp only [processPages, h]

/-- Evaluating `update_cache` with an unset watermark: the cache is reset and the full
namespace listing is processed. -/
theorem update_cache_none (B : WikiBackend) (c : Cache) (now : Int)
    (pages : List String) (hl : B.pageList wiki_path = .ok pages) :
    update_cache B c none now =
      (processPages B [] pages).bind (fun c' => .ok (c', now)) := by
  simp only [update_cache, hl]
  rfl

/-- Evaluating `update_cache` with a non-zero watermark: the changed pages under the
namespace prefix are processed into the existing cache. -/
theorem update_cache_since (B : WikiBackend) (c : Cache) (t now : Int)
    (ht : ¬ t = 0) (changed : List String)
    (hch : B.pageChanges t = .ok changed) :
    update_cache B c (some t) now =
      (processPages B c (changed.filter (fun nm => pyStarts wiki_path nm))).bind
        (fun c' => .ok (c', now)) := by
  simp only [update_cache, if_neg ht, hch]
  rfl

/-- The page id built for uid 7. -/
theorem page_name_7 : wiki_path ++ pad3 7 = "lab:ausstattung:007" := by decide

/-- The page id built for uid 42. -/
theorem page_name_42 : wiki_path ++ pad3 42 = "lab:ausstattung:042" := by decide

/-- The trailing segment of `lab:ausstattung:007` parses to 7. -/
theorem uid_seg_007 :
    pyInt ((pySplit ':' "lab:ausstattung:007").getLastD "") = some 7 := by decide

/-- The trailing segment of `lab:ausstattung:042` parses to 42. -/
theorem uid_seg_042 :
    pyInt ((pySplit ':' "lab:ausstattung:042").getLastD "") = some 42 := by decide

/-- The trailing segment of `lab:ausstattung:readme` does not parse. -/
theorem uid_seg_readme :
    pyInt ((pySplit ':' "lab:ausstattung:readme").getLastD "") = none := by decide

/-! ## C3 -/

/-- A wiki backend whose namespace listing names one page that turns out not
to exist. -/
def bListGhost : WikiBackend :=
  { pageInfo := fun _ => .ok [],
    pageRecord := fun _ => .ok [],
    pageList := fun _ => .ok ["lab:ausstattung:042"],
    pageChanges := fun _ => .ok [] }

/-- C3 counterexample: a full refresh over a single listed page whose fetch
finds no page does NOT skip it without a cache entry — it stores the empty
record under uid 42. -/
theorem c3_counterexample :
    update_cache bListGhost [] none 100 = .ok ([(42, [])], 100) := by decide

/-- C3 amended: during a batch refresh, a page listed as existing whose
fetch finds no page is logged and an EMPTY cache entry is stored under its
uid; the refresh continues over the remaining pages and returns the new
watermark.  A wiki transport error during any single page's fetch, however,
propagates and aborts the whole refresh (there is no per-page exception
handling). -/
theorem c3_amended_partial_refresh (B B' : WikiBackend) (now now' : Int)
    (info : List (String × String)) (rec : RawRecord)
    (hlist : B.pageList wiki_path =
      .ok ["lab:ausstattung:007", "lab:ausstattung:042"])
    (hinfo7 : B.pageInfo "lab:ausstattung:007" = .ok [])
    (hinfo42 : B.pageInfo "lab:ausstattung:042" = .ok info) (hne : info ≠ [])
    (hrec42 : B.pageRecord "lab:ausstattung:042" = .ok rec)
    (hlist' : B'.pageList wiki_path =
      .ok ["lab:ausstattung:007", "lab:ausstattung:042"])
    (hinfo7' : B'.pageInfo "lab:ausstattung:007" = .error PyErr.dokuWikiError) :
    update_cache B [] none now = .ok ([(7, []), (42, rec)], now) ∧
    update_cache B' [] none now' = .error PyErr.dokuWikiError := by
  constructor
  · have h7 : get_dataentry B 7 = .ok [] :=
      get_dataentry_missing B 7 (by rw [page_name_7]; exact hinfo7)
    have h42 : get_dataentry B 42 = .ok rec :=
      get_dataentry_exists B 42 info rec (by rw [page_name_42]; exact hinfo42)
        hne (by rw [page_name_42]; exact hrec42)
    rw [update_cache_none B [] now _ hlist,
      processPages_hit B [] _ _ 7 uid_seg_007, h7]
    show (processPages B (dictSet [] 7 []) _).bind _ = _
    rw [processPages_hit B _ _ _ 42 uid_seg_042, h42]
    rfl
  · have h7 : get_dataentry B' 7 = .error PyErr.dokuWikiError :=
      get_dataentry_err B' 7 (by rw [page_name_7]; exact hinfo7')
    rw [update_cache_none B' [] now' _ hlist',
      processPages_hit B' [] _ _ 7 uid_seg_007, h7]
    rfl

/-- A concrete record for an existing page. -/
def recLaptop : RawRecord :=
  [("ID", PyVal.s "042"), ("Typ_devicetypes", PyVal.s "Laptop")]

/-- A backend listing a ghost page (007) and an existing page (042). -/
def bGhostAnd42 : WikiBackend :=
  { pageInfo := fun p =>
      if p = "lab:ausstattung:042" then .ok [("name", "lab:ausstattung:042")]
      else .ok [],
    pageRecord := fun _ => .ok recLaptop,
    pageList := fun _ => .ok ["lab:ausstattung:007", "lab:ausstattung:042"],
    pageChanges := fun _ => .ok [] }

/-- A backend raising a transport error on page 007. -/
def bErr7 : WikiBackend :=
  { pageInfo := fun p =>
      if p = "lab:ausstattung:007" then .error PyErr.dokuWikiError else .ok [],
    pageRecord := fun _ => .ok [],
    pageList := fun _ => .ok ["lab:ausstattung:007", "lab:ausstattung:042"],
    pageChanges := fun _ => .ok [] }

/-- C3 amended, witness at concrete backends. -/
theorem c3_amended_witness :
    update_cache bGhostAnd42 [] none 100 = .ok ([(7, []), (42, recLaptop)], 100) ∧
    update_cache bErr7 [] none 101 = .error PyErr.dokuWikiError :=
  c3_amended_partial_refresh bGhostAnd42 bErr7 100 101
    [("name", "lab:ausstattung:042")] recLaptop
    (by decide) (by decide) (by decide) (by decide) (by decide)
    (by decide) (by decide)

/-! ## C7 -/

/-- Only the namespace-prefixed changed pages survive the filter. -/
theorem changed_filter_c7 :
    (["lab:ausstattung:042", "lab:ausstattung:readme", "wiki:start"].filter
      (fun nm => pyStarts wiki_path nm)) =
      ["lab:ausstattung:042", "lab:ausstattung:readme"] := by decide

/-- C7: during an incremental refresh, the trailing colon-separated segment
of each changed page id is parsed as the uid: `lab:ausstattung:042` yields
uid 42 (its record is stored under key 42), and `lab:ausstattung:readme`
(non-integer suffix) is skipped without raising an error — the refresh
returns normally. -/
theorem c7_trailing_segment_uid (B : WikiBackend) (c : Cache) (t now : Int)
    (info : List (String × String)) (rec : RawRecord)
    (ht : ¬ t = 0)
    (hch : B.pageChanges t =
      .ok ["lab:ausstattung:042", "lab:ausstattung:readme", "wiki:start"])
    (hinfo : B.pageInfo "lab:ausstattung:042" = .ok info) (hne : info ≠ [])
    (hrec : B.pageRecord "lab:ausstattung:042" = .ok rec) :
    update_cache B c (some t) now = .ok (dictSet c 42 rec, now) := by
  have h42 : get_dataentry B 42 = .ok rec :=
    get_dataentry_exists B 42 info rec (by rw [page_name_42]; exact hinfo)
      hne (by rw [page_name_42]; exact hrec)
  rw [update_cache_since B c t now ht _ hch, changed_filter_c7,
    processPages_hit B c _ _ 42 uid_seg_042, h42]
  show (processPages B (dictSet c 42 rec) _).bind _ = _
  rw [processPages_skip B _ _ _ uid_seg_readme]
  rfl

/-- A backend for the C7 witness: one changed item page, one changed
non-item page, one changed page outside the namespace. -/
def bChanged : WikiBackend :=
  { pageInfo := fun p =>
      if p = "lab:ausstattung:042" then .ok [("name", "lab:ausstattung:042")]
      else .ok [],
    pageRecord := fun _ => .ok recLaptop,
    pageList := fun _ => .ok [],
    pageChanges := fun _ =>
      .ok ["lab:ausstattung:042", "lab:ausstattung:readme", "wiki:start"] }

/-- C7 witness at a concrete backend and watermark. -/
theorem c7_witness :
    update_cache bChanged [] (some 5) 200 = .ok (dictSet [] 42 recLaptop, 200) :=
  c7_trailing_segment_uid bChanged [] 5 200
    [("name", "lab:ausstattung:042")] recLaptop
    (by decide) (by decide) (by decide) (by decide) (by decide)

/-! ## C5 -/

/-- A page record whose stored `ID` content field (007) disagrees with the
page identifier suffix (042). -/
def recContentId : RawRecord :=
  [("ID", PyVal.s "007"), ("Typ_devicetypes", PyVal.s "Laptop")]

/-- A backend with the single item page `lab:ausstattung:042` whose content
carries `ID = "007"`. -/
def bContentId : WikiBackend :=
  { pageInfo := fun _ => .ok [("name", "lab:ausstattung:042")],
    pageRecord := fun _ => .ok recContentId,
    pageList := fun _ => .ok ["lab:ausstattung:042", "lab:ausstattung:readme"],
    pageChanges := fun _ => .ok [] }

/-- C5 counterexample: page `lab:ausstattung:042` is cached under uid 42
(from the page identifier), but the Item that `list_items` produces for it
has `uid = 7`, taken from the page's `ID` content field — refuting that the
produced Item's uid is derived solely from the page identifier suffix and
never from content. -/
theorem c5_counterexample :
    list_items bContentId ⟨[], none⟩ 50 none none none =
      .ok (⟨[(42, recContentId)], some 50⟩,
        [{ emptyItem with uid := some 7, typ := some ["Laptop"] }]) := by decide

/-- C5 amended: the CACHE KEY uid is derived solely from the numeric page
identifier suffix, and pages whose suffix does not parse as an integer are
excluded from the cache; but the uid field of the Item produced from a
record is populated from the record's `ID` content field (here: content 007
inside page 042), not from the page identifier. -/
theorem c5_amended_uid_source (B : WikiBackend) (now : Int)
    (info : List (String × String))
    (hlist : B.pageList wiki_path =
      .ok ["lab:ausstattung:042", "lab:ausstattung:readme"])
    (hinfo : B.pageInfo "lab:ausstattung:042" = .ok info) (hne : info ≠ [])
    (hrec : B.pageRecord "lab:ausstattung:042" = .ok recContentId) :
    update_cache B [] none now = .ok ([(42, recContentId)], now) ∧
    _dw_to_item recContentId =
      .ok { emptyItem with uid := some 7, typ := some ["Laptop"] } := by
  constructor
  · have h42 : get_dataentry B 42 = .ok recContentId :=
      get_dataentry_exists B 42 info recContentId
        (by rw [page_name_42]; exact hinfo) hne
        (by rw [page_name_42]; exact hrec)
    rw [update_cache_none B [] now _ hlist,
      processPages_hit B [] _ _ 42 uid_seg_042, h42]
    show (processPages B (dictSet [] 42 recContentId) _).bind _ = _
    rw [processPages_skip B _ _ _ uid_seg_readme]
    rfl
  · decide

/-- C5 amended, witness at a concrete backend. -/
theorem c5_amended_witness :
    update_cache bContentId [] none 50 = .ok ([(42, recContentId)], 50) ∧
    _dw_to_item recContentId =
      .ok { emptyItem with uid := some 7, typ := some ["Laptop"] } :=
  c5_amended_uid_source bContentId 50 [("name", "lab:ausstattung:042")]
    (by decide) (by decide) (by decide) (by decide)

/-! ## C8 -/

/-- Modelled from the spec (§4.2 rebuildAll, a spec-side reference
definition for the refinement claim C8): list all item pages under the
configured namespace, fetch each page's structured record into a fresh
cache — replacing the entire cache contents — and return the current time
as the new watermark. -/
def rebuildAll_spec (B : WikiBackend) (now : Int) : Except PyErr (Cache × Int) := do
  let pages ← B.pageList wiki_path
  let c ← processPages B [] pages
  .ok (c, now)

/-- C8: calling the refresh with an unset watermark behaves identically to
the full rebuild: the `/update_cache` endpoint coincides with the
`/purge_cache` endpoint, and for ANY prior cache contents the refresh
equals the spec's rebuildAll — the cache is emptied and rebuilt from the
full page listing of the configured namespace, with the current time
returned as the new watermark. -/
theorem c8_unset_watermark_is_rebuild (B : WikiBackend) (st : AppState)
    (now : Int) (h : st.last_checked_ts = none) :
    update_cache_now B st now = purge_cache B st now ∧
    (∀ c' : Cache, update_cache B c' none now = rebuildAll_spec B now) := by
  constructor
  · unfold update_cache_now purge_cache
    rw [h]
  · intro c'
    rfl

/-- C8 witness: a concrete state with an unset watermark and a non-empty
prior cache. -/
theorem c8_witness :
    update_cache_now bGhostAnd42 ⟨[(3, recLaptop)], none⟩ 100 =
      purge_cache bGhostAnd42 ⟨[(3, recLaptop)], none⟩ 100 ∧
    (∀ c' : Cache,
      update_cache bGhostAnd42 c' none 100 = rebuildAll_spec bGhostAnd42 100) :=
  c8_unset_watermark_is_rebuild bGhostAnd42 ⟨[(3, recLaptop)], none⟩ 100 rfl

/-! ## C9 -/

/-- C9: if the cache is empty after the refresh triggered by `list_items`,
the endpoint does not return an empty list — it fails with the assertion
error of the `assert False` branch; and whenever `list_items` returns
normally, the refreshed cache is non-empty. -/
theorem c9_empty_cache_assertion (B : WikiBackend) (st : AppState) (now : Int) :
    (∀ ts : Int,
      update_cache B st.cache st.last_checked_ts now = .ok ([], ts) →
      list_items B st now none none none = .error PyErr.assertionError) ∧
    (∀ (st' : AppState) (items : List Item),
      list_items B st now none none none = .ok (st', items) →
      st'.cache ≠ []) := by
  constructor
  · intro ts h
    simp [list_items, h]
  · intro st' items h
    unfold list_items at h
    split at h
    · exact absurd h (by simp)
    · split at h
      · exact absurd h (by simp)
      · rename_i hc
        split at h
        · simp only [Except.ok.injEq, Prod.mk.injEq] at h
          rw [← h.1]
          exact hc
        · exact absurd h (by simp)

/-- C9 witness: on a backend whose namespace listing is empty, `list_items`
fails with the assertion error. -/
theorem c9_witness :
    list_items bMissing ⟨[], none⟩ 1 none none none =
      .error PyErr.assertionError :=
  (c9_empty_cache_assertion bMissing ⟨[], none⟩ 1).1 1 (by decide)

/-! ## C6 -/

/-- C6: every successful user lookup returns an `allowed` list that contains
the read-only operations `read_item` and `list_items`, and contains
`update_item` if and only if the user's normalized group list intersects the
configured privileged-group list. -/
theorem c6_allowed_operations (L : LdapBackend) (user_id : String)
    (u : UserData) (h : read_user_data L user_id = .ok (some u)) :
    "read_item" ∈ u.allowed ∧ "list_items" ∈ u.allowed ∧
    ("update_item" ∈ u.allowed ↔
      ∃ g ∈ u.groups, g ∈ groups_with_edit_rights) := by
  unfold read_user_data at h
  simp only [] at h
  split at h
  · exact absurd h (by simp)
  · split at h
    · split at h
      · simp only [Except.ok.injEq, Option.some.injEq] at h
        subst h
        refine ⟨?_, ?_, ?_⟩
        · split <;> simp
        · split <;> simp
        · split
          · rename_i hg
            refine iff_of_true (by simp) ?_
            rcases List.any_eq_true.mp hg with ⟨r, hr, hd⟩
            exact ⟨r, of_decide_eq_true hd, hr⟩
          · rename_i hg
            refine iff_of_false (by simp) ?_
            rintro ⟨g, hgG, hgr⟩
            exact absurd (List.any_eq_true.mpr ⟨g, hgr, decide_eq_true hgG⟩) hg
      · exact absurd h (by simp)
    · exact absurd h (by simp)

/-- A directory entry for a member of one privileged group. -/
def staffEntry : LdapEntry :=
  { groupMembership := ["cn=mi-staff,ou=mi,ou=sprachlit,o=uni-regensburg,c=de"],
    fullName := ["Alice Ann"],
    mail := ["alice@ur.de"] }

/-- A directory returning exactly that entry for any query. -/
def ldapStaff : LdapBackend :=
  { search := fun _ => .ok [("cn=alice", staffEntry)] }

/-- The lookup result for that entry. -/
def uAlice : UserData :=
  { user_id := "alice", name := "Alice Ann", email := "alice@ur.de",
    groups := ["mi-staff.mi.sprachlit.uni-regensburg.de"],
    allowed := ["read_item", "list_items", "update_item"] }

/-- C6 witness at a concrete directory. -/
theorem c6_witness :
    "read_item" ∈ uAlice.allowed ∧ "list_items" ∈ uAlice.allowed ∧
    ("update_item" ∈ uAlice.allowed ↔
      ∃ g ∈ uAlice.groups, g ∈ groups_with_edit_rights) :=
  c6_allowed_operations ldapStaff "alice" uAlice (by decide)

end MIRental
